import Mathlib

/-!
Verification of the convo repository's View Store (`src/convo/core/view_manager.py`)
and SQL Agent (`src/convo/core/sql_agent.py`) against its natural-language spec.

The embedding is shallow: Python dictionaries become association lists
(preserving insertion order, as Python dicts do), the DuckDB engine and the
external text-generation provider become explicit oracles, mutation of
`self` becomes explicit state passing, `datetime.now()` becomes an explicit
`now : Nat` parameter, and Python exceptions become `Except` values.
Connection lifecycle is tracked explicitly: each operation reports how many
engine connections it opened and how many it closed, so resource-scoping
claims can be stated.
-/

namespace Convo

/-! ## Python string primitives

`generate_sql` post-processes the provider's completion with
`re.sub(r'```sql\s*', '', sql)`, `re.sub(r'```\s*', '', sql)` and `str.strip()`.
We embed these over `List Char`.
-/

/-- Python's `\s` character class (ASCII part): space, tab, newline, carriage
return, vertical tab, form feed.  The completions handled by the agent are
ASCII SQL text. -/
def isPySpace (c : Char) : Bool :=
  c == ' ' || c == '\t' || c == '\n' || c == '\r' || c == '\x0b' || c == '\x0c'

/-- Python's `str.strip()`: drop whitespace from both ends. -/
def pyStrip (s : String) : String :=
  ⟨((s.data.dropWhile isPySpace).reverse.dropWhile isPySpace).reverse⟩

/-- Worker for `re.sub(pat ++ r'\s*', '', s)` where `pat` is a literal,
non-empty character pattern.  Scans left to right like Python's `re.sub`:
`del` counts pattern characters still being consumed by the current match,
and `skip = true` means the greedy `\s*` tail of the previous match is still
consuming whitespace.  At each position outside a match the pattern is tried
anew; every recursive call is on the tail of the input, so the function is
structurally recursive and evaluates by `rfl`/`decide`. -/
def subFenceGo (pat : List Char) : Nat → Bool → List Char → List Char
  | _, _, [] => []
  | n + 1, _, _ :: rest => subFenceGo pat n true rest
  | 0, skip, c :: rest =>
    if skip && isPySpace c then
      subFenceGo pat 0 true rest
    else if pat.isPrefixOf (c :: rest) then
      subFenceGo pat (pat.length - 1) true rest
    else
      c :: subFenceGo pat 0 false rest

/-- `re.sub(pat ++ r'\s*', '', s)` for a literal non-empty pattern `pat`:
every non-overlapping occurrence of `pat` followed by a greedy run of
whitespace is deleted, scanning left to right. -/
def pySubFence (pat : List Char) (s : String) : String :=
  ⟨subFenceGo pat 0 false s.data⟩

/-- The pattern of `re.sub(r'```sql\s*', '', sql)`. -/
def sqlFencePat : List Char := ['`', '`', '`', 's', 'q', 'l']

/-- The pattern of `re.sub(r'```\s*', '', sql)`. -/
def bareFencePat : List Char := ['`', '`', '`']

/-- Substring test (used to state claims about the prompt text): does
`needle` occur contiguously inside `hay`? -/
def containsSub (needle : List Char) : List Char → Bool
  | [] => needle.isEmpty
  | c :: rest => needle.isPrefixOf (c :: rest) || containsSub needle rest

/-- `strContains hay needle = true` iff `needle` is a contiguous substring
of `hay`. -/
def strContains (hay needle : String) : Bool :=
  containsSub needle.data hay.data

/-! ## SQLAgent.generate_sql

`generate_sql` delegates to `_generate_sql_openai` / `_generate_sql_google`,
both of which return `completion.strip()` on success and re-raise the
provider's exception on failure.  The external text-generation capability is
modelled as its outcome: `Except String String` (error message, or the raw
completion text).  `generate_sql` then removes markdown fences and strips. -/

/-- `SQLAgent.generate_sql` as a function of the provider call's outcome.

Python:
```
sql = self._generate_sql_openai(question)   # provider text .strip(), or raise
sql = re.sub(r'```sql\s*', '', sql)
sql = re.sub(r'```\s*', '', sql)
sql = sql.strip()
return sql
```
-/
def generate_sql (provider : Except String String) : Except String String :=
  match provider with
  | .error msg => .error msg
  | .ok text =>
    let sql := pyStrip text
    let sql := pySubFence sqlFencePat sql
    let sql := pySubFence bareFencePat sql
    .ok (pyStrip sql)

/-! ## Data model (`view_manager.py`)

A view definition as persisted in `data/views_config.json`.  Timestamps
(`datetime.now().isoformat()` in Python) are abstracted to `Nat` instants;
every operation takes the current instant `now` explicitly. -/

structure ViewDefinition where
  name : String
  description : String
  sql_query : String
  tags : List String
  created : Nat
  updated : Nat
deriving Repr, DecidableEq

/-- The backing store file: top-level keys `version`, `created`,
`last_updated` and `views`.  The `views` mapping is a Python dict, i.e. an
insertion-ordered association list keyed by view name. -/
structure ViewsConfig where
  version : String
  created : Nat
  last_updated : Nat
  views : List (String × ViewDefinition)
deriving Repr, DecidableEq

/-- The ViewManager's state: `mem` is `self.views` (the in-memory cache) and
`disk` is the current content of the backing JSON file.  `_save_views_config`
stamps `last_updated` and rewrites the whole file, so after every successful
save `mem = disk`. -/
structure ViewManagerState where
  mem : ViewsConfig
  disk : ViewsConfig
deriving Repr, DecidableEq

/-- Bootstrap state: `_load_views_config` with no existing file writes a
default empty, versioned container (and `_save_views_config` stamps
`last_updated`). -/
def ViewManagerState.init (now : Nat) : ViewManagerState :=
  let cfg : ViewsConfig := { version := "1.0", created := now, last_updated := now, views := [] }
  { mem := cfg, disk := cfg }

/-- The DuckDB engine and S3 store, as an oracle.  `connectOk` says whether
`_get_duckdb_connection` (connect + INSTALL/LOAD httpfs + S3 settings)
succeeds; `setupOk` says whether the same setup statements succeed inside
`execute_query`'s own connection; `execOk stmt` says whether executing
`stmt` on a connection succeeds; `describeCols v` gives the column names a
successful `DESCRIBE v` returns; `queryRows sql` gives the rows (each a
column-name/value association in column order) a successful `sql` returns. -/
structure Engine where
  connectOk : Bool
  setupOk : Bool
  execOk : String → Bool
  describeCols : String → List String
  queryRows : String → List (List (String × String))

/-- How many engine connections an operation opened and how many it closed:
the explicit resource ledger for connection-scoping claims. -/
structure ConnStats where
  opens : Nat
  closes : Nat
deriving Repr, DecidableEq

/-- The error kinds of the spec's taxonomy, as raised by the Python code:
`duplicateName` and `invalidViewDefinition` are the `ValueError`s of
`create_view`, `engineError` is a propagated engine/connection exception,
`queryExecutionError` is a failure of the caller's SQL in `execute_query`. -/
inductive VMError where
  | duplicateName (name : String)
  | invalidViewDefinition (name : String)
  | engineError
  | queryExecutionError
deriving Repr, DecidableEq

/-- Python dict assignment `d[k] = v` on an insertion-ordered dict: replace
in place if the key exists, else append at the end. -/
def updateAssoc (k : String) (v : ViewDefinition) :
    List (String × ViewDefinition) → List (String × ViewDefinition)
  | [] => [(k, v)]
  | (k', v') :: rest => if k' == k then (k, v) :: rest else (k', v') :: updateAssoc k v rest

/-- `self.views.get("views", {}).get(view_name)` — also `get_view`. -/
def lookupView (st : ViewManagerState) (view_name : String) : Option ViewDefinition :=
  st.mem.views.lookup view_name

/-- The validation probe of `create_view`:
`f"SELECT * FROM ({sql_query}) LIMIT 1"`. -/
def testQuery (sql_query : String) : String :=
  "SELECT * FROM (" ++ sql_query ++ ") LIMIT 1"

/-- `f"CREATE OR REPLACE VIEW {view_name} AS {sql_query}"`. -/
def createViewSQL (view_name sql_query : String) : String :=
  "CREATE OR REPLACE VIEW " ++ view_name ++ " AS " ++ sql_query

/-- `ViewManager.create_view`.  Returns the Python result (`True`, or the
raised error), the resulting manager state, and the connection ledger.

Faithful control flow: the duplicate-name guard runs first, with no
connection; then, inside a `try`, a connection is acquired, the 1-row probe
and the `CREATE OR REPLACE VIEW` are executed, and the connection is closed
— `conn.close()` is only reached on the success path, so a probe or create
failure leaves the connection open.  Any exception in that block is wrapped
into the `Invalid SQL query` ValueError.  Only after successful validation
is the definition written into the dict (fresh `created` and `updated`
stamps) and the whole config saved to disk. -/
def create_view (st : ViewManagerState) (e : Engine) (now : Nat)
    (view_name description sql_query : String) (tags : List String) (replace : Bool) :
    Except VMError Bool × ViewManagerState × ConnStats :=
  if !replace && (lookupView st view_name).isSome then
    (.error (.duplicateName view_name), st, ⟨0, 0⟩)
  else if !e.connectOk then
    (.error (.invalidViewDefinition view_name), st, ⟨0, 0⟩)
  else if !e.execOk (testQuery sql_query) then
    (.error (.invalidViewDefinition view_name), st, ⟨1, 0⟩)
  else if !e.execOk (createViewSQL view_name sql_query) then
    (.error (.invalidViewDefinition view_name), st, ⟨1, 0⟩)
  else
    let vd : ViewDefinition :=
      { name := view_name, description := description, sql_query := sql_query,
        tags := tags, created := now, updated := now }
    let mem' := { st.mem with views := updateAssoc view_name vd st.mem.views,
                              last_updated := now }
    (.ok true, { mem := mem', disk := mem' }, ⟨1, 1⟩)

/-- `ViewManager.delete_view`.  A missing name returns `False` with nothing
touched; otherwise a connection is acquired and `DROP VIEW IF EXISTS` runs
inside a `try` whose handler logs and re-raises, so an engine failure
propagates (and skips `conn.close()`); on success the entry is removed from
the dict and the config is saved. -/
def delete_view (st : ViewManagerState) (e : Engine) (now : Nat) (view_name : String) :
    Except VMError Bool × ViewManagerState × ConnStats :=
  if (lookupView st view_name).isNone then
    (.ok false, st, ⟨0, 0⟩)
  else if !e.connectOk then
    (.error .engineError, st, ⟨0, 0⟩)
  else if !e.execOk ("DROP VIEW IF EXISTS " ++ view_name) then
    (.error .engineError, st, ⟨1, 0⟩)
  else
    let mem' := { st.mem with views := st.mem.views.filter (fun p => p.1 != view_name),
                              last_updated := now }
    (.ok true, { mem := mem', disk := mem' }, ⟨1, 1⟩)

/-- `ViewManager._get_view_columns`.  Everything runs inside a `try` whose
handler logs a warning and returns `[]`: a connection failure opens nothing,
but once a connection is open, a failing `CREATE OR REPLACE VIEW` or
`DESCRIBE` returns `[]` without reaching `conn.close()`. -/
def get_view_columns (st : ViewManagerState) (e : Engine) (view_name : String) :
    List String × ConnStats :=
  if !e.connectOk then
    ([], ⟨0, 0⟩)
  else
    let createFailed :=
      match lookupView st view_name with
      | some vd => !e.execOk (createViewSQL view_name vd.sql_query)
      | none => false
    if createFailed then ([], ⟨1, 0⟩)
    else if !e.execOk ("DESCRIBE " ++ view_name) then ([], ⟨1, 0⟩)
    else (e.describeCols view_name, ⟨1, 1⟩)

/-- The per-view record `get_views_for_agent` hands to the SQL agent. -/
structure AgentViewInfo where
  name : String
  description : String
  tags : String
  usage : String
  created : Nat
  sample_columns : List String
deriving Repr, DecidableEq

/-- `ViewManager.get_views_for_agent`: one record per stored view, with the
tags joined by `", "`, a canned usage hint, and the advisory column list
from `_get_view_columns`. -/
def get_views_for_agent (st : ViewManagerState) (e : Engine) : List AgentViewInfo :=
  st.mem.views.map (fun p =>
    { name := p.1, description := p.2.description,
      tags := String.intercalate ", " p.2.tags,
      usage := "SELECT * FROM " ++ p.1,
      created := p.2.created,
      sample_columns := (get_view_columns st e p.1).1 })

/-! ## SQLAgent (`sql_agent.py`) -/

/-- `SQLAgent._get_table_schema()`'s shape: the fixed table name, the S3
path (`get_table_s3_path()` from settings, passed in explicitly), the
ordered column-description dict and the canned sample queries. -/
structure TableSchema where
  table_name : String
  s3_path : String
  columns : List (String × String)
  sample_queries : List String

/-- `SQLAgent._get_table_schema`, with the configured S3 path as parameter. -/
def get_table_schema (s3_path : String) : TableSchema :=
  { table_name := "conversation_entry"
    s3_path := s3_path
    columns :=
      [ ("entry_id", "VARCHAR - Unique identifier (session_id + interaction_id)"),
        ("session_id", "VARCHAR - Session identifier for grouping conversations"),
        ("interaction_id", "INTEGER - Sequential number within a session (1, 2, 3...)"),
        ("date", "DATE - Date of the conversation"),
        ("hour", "INTEGER - Hour of day (0-23)"),
        ("question", "VARCHAR - The question asked by the user"),
        ("question_created", "TIMESTAMPTZ - Timestamp when question was asked"),
        ("answer", "VARCHAR - The AI response to the question"),
        ("answer_created", "TIMESTAMPTZ - Timestamp when answer was provided"),
        ("action", "VARCHAR - Action type (general, orders, msa_agents, inventory, customer_service, safety)"),
        ("user_id", "VARCHAR - ID of the user who asked the question"),
        ("location_id", "INTEGER - Store location ID (1001-1499)"),
        ("region_id", "INTEGER - Regional grouping (100-149)"),
        ("group_id", "INTEGER - Group identifier (10-24)"),
        ("district_id", "INTEGER - District identifier (1-14)"),
        ("user_roles", "VARCHAR[] - Array of user roles (team_member, team_lead, etc.)"),
        ("sources", "STRUCT(name VARCHAR, score FLOAT)[] - RAG sources with relevance scores") ]
    sample_queries :=
      [ "SELECT COUNT(*) FROM conversation_entry",
        "SELECT session_id, COUNT(*) as interactions FROM conversation_entry GROUP BY session_id",
        "SELECT date, COUNT(*) as daily_conversations FROM conversation_entry GROUP BY date ORDER BY date",
        "SELECT action, COUNT(*) as count FROM conversation_entry GROUP BY action ORDER BY count DESC" ] }

/-- The agent's constructor-time state.  `__init__` stores
`self.table_schema`, the `ViewManager` (whose state keeps evolving as views
are created or deleted through it), and — crucially —
`self.available_views = self.view_manager.get_views_for_agent()`, a list
computed once at construction. -/
structure SQLAgent where
  table_schema : TableSchema
  view_manager : ViewManagerState
  available_views : List AgentViewInfo

/-- `SQLAgent.__init__` (the parts relevant to prompt building): snapshot
`get_views_for_agent()` from the manager's current state. -/
def SQLAgent.init (st : ViewManagerState) (e : Engine) (s3_path : String) : SQLAgent :=
  { table_schema := get_table_schema s3_path
    view_manager := st
    available_views := get_views_for_agent st e }

/-- One view's block inside `_format_views_for_prompt`'s loop:
`f"\nVIEW: {name}\nDescription: {description}\nUsage: {usage}\nTags: {tags}\nSample Columns: {...}\n"`. -/
def formatView (v : AgentViewInfo) : String :=
  "\nVIEW: " ++ v.name ++ "\nDescription: " ++ v.description ++ "\nUsage: " ++ v.usage
    ++ "\nTags: " ++ v.tags ++ "\nSample Columns: "
    ++ (if v.sample_columns.isEmpty then "N/A" else String.intercalate ", " v.sample_columns)
    ++ "\n"

/-- `SQLAgent._format_views_for_prompt`: reads `self.available_views` (the
constructor-time snapshot), not the View Store. -/
def format_views_for_prompt (a : SQLAgent) : String :=
  if a.available_views.isEmpty then "No views are currently available."
  else pyStrip (String.join (a.available_views.map formatView))

/-! The system prompt of `_create_system_prompt`, split into its sections.
The date values (`datetime.now().date()` and offsets) are passed in as
already-formatted strings `today`, `yesterday`, `two_days_ago`, `week_ago`
(the last being `today - timedelta(days=7)`). -/

/-- Opening of the first f-string, up to and including `COLUMNS:\n`. -/
def promptHeader (table_name s3_path : String) : String :=
  "You are a DuckDB SQL expert. Your job is to convert natural language questions into valid DuckDB SQL queries.

TABLE SCHEMA:
Table: " ++ table_name ++ "
S3 Path: " ++ s3_path ++ "

COLUMNS:
"

/-- The column loop: `prompt += f\"- {col}: {desc}\n\"` for each column. -/
def promptColumns (columns : List (String × String)) : String :=
  columns.foldl (fun acc p => acc ++ "- " ++ p.1 ++ ": " ++ p.2 ++ "\n") ""

/-- Start of the second f-string: date context, up to and including
`AVAILABLE VIEWS:\n` (the views text is interpolated right after). -/
def promptDates (today yesterday two_days_ago : String) : String :=
  "
CURRENT DATE CONTEXT:
- Today's date: " ++ today ++ "
- Yesterday: " ++ yesterday ++ "
- Two days ago: " ++ two_days_ago ++ "

AVAILABLE VIEWS:
"

/-- The numbered DuckDB syntax rules (rule 2 interpolates the S3 path). -/
def promptRules (s3_path : String) : String :=
  "

IMPORTANT DUCKDB SYNTAX RULES:
1. **PREFER VIEWS WHEN AVAILABLE**: If a user's question matches the purpose of an available view, use the view instead of querying the raw S3 data directly
2. Query from the S3 path: '" ++ s3_path ++ "' only when no suitable view exists
3. Use proper DuckDB syntax for arrays and structs
4. For array columns like user_roles, use array syntax: user_roles[1] for first element
5. For struct arrays like sources, use: sources[1].name or sources[1].score
6. Date functions: Use EXTRACT(field FROM date) or date_part('field', date)
7. String matching: Use LIKE or ILIKE for case-insensitive
8. Always include proper GROUP BY clauses when using aggregations
9. NEVER use relative date terms like 'today', 'yesterday', etc. Always use explicit dates in YYYY-MM-DD format
10. For date comparisons, use proper DATE literals: DATE '2025-01-31'
11. NEVER use MySQL syntax like DATE_SUB(), DATE_ADD(), or INTERVAL - these don't work in DuckDB
12. For date arithmetic in DuckDB, use: CURRENT_DATE - INTERVAL 2 DAY or DATE '2025-01-31' - INTERVAL '2 days'
13. But PREFER using explicit date literals from the context provided above
14. **ALWAYS use human-readable column aliases instead of raw database column names**
"

/-- The column-aliasing policy section. -/
def promptAliasing : String :=
  "
COLUMN ALIASING REQUIREMENTS:
- Use meaningful, human-readable names for all columns in SELECT statements
- Transform technical column names into user-friendly labels
- Examples of good aliases:
  * session_id → \"Session ID\"
  * interaction_id → \"Interaction\"
  * question_created → \"Question Time\"
  * answer_created → \"Answer Time\"
  * user_id → \"User ID\"
  * location_id → \"Store Location\"
  * region_id → \"Region\"
  * group_id → \"Group\"
  * district_id → \"District\"
  * user_roles → \"User Roles\"
  * COUNT(*) → \"Total Count\"
  * COUNT(DISTINCT session_id) → \"Unique Sessions\"
  * AVG(interaction_id) → \"Average Interactions\"
"

/-- Forbidden/correct date syntax and the date-handling examples. -/
def promptDateSyntax (today yesterday two_days_ago week_ago : String) : String :=
  "
FORBIDDEN SYNTAX (DO NOT USE):
- DATE_SUB(CURRENT_DATE, INTERVAL 2 DAY) ❌
- DATE_ADD(date, INTERVAL 1 DAY) ❌
- CURDATE() ❌

CORRECT DUCKDB DATE SYNTAX:
- CURRENT_DATE ✅
- DATE '2025-01-31' ✅
- CURRENT_DATE - INTERVAL 2 DAY ✅
- date >= DATE '2025-01-24' AND date <= DATE '2025-01-31' ✅

DATE HANDLING EXAMPLES:
- \"conversations from today\" → WHERE date = DATE '" ++ today ++ "'
- \"conversations from yesterday\" → WHERE date = DATE '" ++ yesterday ++ "'
- \"conversations from two days ago\" → WHERE date = DATE '" ++ two_days_ago ++ "'
- \"conversations from last week\" → WHERE date >= DATE '" ++ week_ago ++ "' AND date < DATE '" ++ today ++ "'
"

/-- Sample queries (`chr(10).join(...)`) and the response-format demand. -/
def promptSamples (sample_queries : List String) : String :=
  "
SAMPLE QUERIES:
" ++ String.intercalate "\n" sample_queries ++ "

RESPONSE FORMAT:
Return ONLY the SQL query, no explanations or markdown formatting. The query should be ready to execute directly in DuckDB.
"

/-- The worked examples section. -/
def promptExamples (s3_path two_days_ago : String) : String :=
  "
EXAMPLES:
User: \"How many conversations are there?\"
Response: SELECT COUNT(*) as \"Total Conversations\" FROM '" ++ s3_path ++ "'

User: \"Show me conversations by date\" OR \"Show me interactions per day\"
Response: SELECT * FROM interactions_per_day

User: \"What are the most common actions?\" OR \"Show me popular actions\"
Response: SELECT * FROM popular_actions

User: \"Show me active sessions\" OR \"Which sessions had multiple interactions?\"
Response: SELECT * FROM active_sessions

User: \"Show me recent conversations\" OR \"What happened in the last week?\"
Response: SELECT * FROM recent_conversations

User: \"Show me activity by location\" OR \"Which stores are most active?\"
Response: SELECT * FROM location_activity

User: \"Show me all conversations from two days ago\"
Response: SELECT session_id as \"Session ID\", interaction_id as \"Interaction\", question as \"Question\", answer as \"Answer\", user_id as \"User ID\", location_id as \"Store Location\" FROM '" ++ s3_path ++ "' WHERE date = DATE '" ++ two_days_ago ++ "'
"

/-- The closing view-selection priority section (note the two trailing
spaces after `popular_actions view`, present in the source). -/
def promptPriority : String :=
  "
VIEW USAGE PRIORITY:
- If the user asks about daily interactions, conversation counts by date, or similar → use interactions_per_day view
- If the user asks about popular actions, action types, or action statistics → use popular_actions view  
- If the user asks about active sessions, engagement, or multi-interaction sessions → use active_sessions view
- If the user asks about recent data or last week's conversations → use recent_conversations view
- If the user asks about store locations, geography, or regional activity → use location_activity view
- Only query the raw S3 data directly when no existing view matches the user's request
"

/-- `SQLAgent._create_system_prompt`: the two f-strings and the column loop
concatenated in source order, with the live-looking views section actually
coming from the constructor-time `available_views` snapshot via
`format_views_for_prompt`. -/
def create_system_prompt (a : SQLAgent) (today yesterday two_days_ago week_ago : String) :
    String :=
  promptHeader a.table_schema.table_name a.table_schema.s3_path
    ++ promptColumns a.table_schema.columns
    ++ promptDates today yesterday two_days_ago
    ++ format_views_for_prompt a
    ++ promptRules a.table_schema.s3_path
    ++ promptAliasing
    ++ promptDateSyntax today yesterday two_days_ago week_ago
    ++ promptSamples a.table_schema.sample_queries
    ++ promptExamples a.table_schema.s3_path two_days_ago
    ++ promptPriority

/-- `SQLAgent._create_views_in_connection`: iterates over
`self.view_manager.views["views"]` issuing `CREATE OR REPLACE VIEW`; the
whole loop sits inside one `try` whose handler logs a warning, so the first
failing view ends the loop (the views already created stay, the remaining
ones are never attempted) and no exception escapes.  The returned list is
the connection-local set of views actually materialized, in order. -/
def createViewsInConnection (views : List (String × ViewDefinition)) (e : Engine) :
    List String :=
  match views with
  | [] => []
  | (n, vd) :: rest =>
    if e.execOk (createViewSQL n vd.sql_query) then
      n :: createViewsInConnection rest e
    else []

/-- What one `execute_query` call did: its Python result, its connection
ledger, and which views were materialized in its connection. -/
structure ExecOutcome where
  result : Except VMError (List (List (String × String)))
  stats : ConnStats
  materialized : List String
deriving Repr

/-- `SQLAgent.execute_query`: connect (outside the `try`), then inside
`try ... finally conn.close()`: extension/S3 setup, view re-materialization
(which cannot raise), the caller's SQL, and row/column zipping.  The
`finally` means the connection is closed on success and failure alike. -/
def execute_query (a : SQLAgent) (e : Engine) (sql : String) : ExecOutcome :=
  if !e.connectOk then
    { result := .error .engineError, stats := ⟨0, 0⟩, materialized := [] }
  else if !e.setupOk then
    { result := .error .engineError, stats := ⟨1, 1⟩, materialized := [] }
  else
    let created := createViewsInConnection a.view_manager.mem.views e
    if !e.execOk sql then
      { result := .error .queryExecutionError, stats := ⟨1, 1⟩, materialized := created }
    else
      { result := .ok (e.queryRows sql), stats := ⟨1, 1⟩, materialized := created }

/-! ## Concrete scenarios used by the claims -/

/-- An engine that accepts every statement: used for scenarios where the
SQL involved is valid. -/
def okEngine : Engine :=
  { connectOk := true, setupOk := true, execOk := fun _ => true,
    describeCols := fun _ => ["Date", "Total"], queryRows := fun _ => [] }

/-- `get_table_s3_path()` with the default `BUCKET_NAME`. -/
def s3Default : String := "s3://convo/tables/conversation_entry/**/*.parquet"

/-- C1 scenario: the store as bootstrapped empty at instant 0. -/
def c1St0 : ViewManagerState := ViewManagerState.init 0

/-- C1 scenario: `create("foo", ...)` performed on the empty store. -/
def c1Create : Except VMError Bool × ViewManagerState × ConnStats :=
  create_view c1St0 okEngine 1 "foo" "Daily foo counts" "SELECT 1 AS x" ["daily"] false

/-- C1 scenario: the store after `create("foo", ...)`. -/
def c1St1 : ViewManagerState := c1Create.2.1

/-- C1 scenario: the agent as constructed while the store was still empty,
after its own `ViewManager` has since performed `create("foo", ...)`:
`self.view_manager.views` now holds `foo`, but `self.available_views` is
the snapshot taken in `__init__`. -/
def c1AgentStale : SQLAgent :=
  { SQLAgent.init c1St0 okEngine s3Default with view_manager := c1St1 }

/-- C1 scenario: an agent constructed after `create("foo", ...)`. -/
def c1AgentFresh : SQLAgent := SQLAgent.init c1St1 okEngine s3Default

/-- C1 scenario: `delete("foo")` performed after the creation. -/
def c1Delete : Except VMError Bool × ViewManagerState × ConnStats :=
  delete_view c1St1 okEngine 2 "foo"

/-- C1 scenario: the store after `delete("foo")`. -/
def c1St2 : ViewManagerState := c1Delete.2.1

/-- C1 scenario: an agent constructed after `delete("foo")`. -/
def c1AgentFresh2 : SQLAgent := SQLAgent.init c1St2 okEngine s3Default

/-- C2 scenario: a stored view whose body the engine rejects. -/
def c2VdBad : ViewDefinition :=
  { name := "bad", description := "broken legacy view", sql_query := "SELECT * FROM nope",
    tags := [], created := 0, updated := 0 }

/-- C2 scenario: a stored view whose body the engine accepts. -/
def c2VdGood : ViewDefinition :=
  { name := "good", description := "fine view", sql_query := "SELECT 2",
    tags := [], created := 0, updated := 0 }

/-- C2 scenario: store holding `bad` before `good` (iteration order). -/
def c2Cfg : ViewsConfig :=
  { version := "1.0", created := 0, last_updated := 0,
    views := [("bad", c2VdBad), ("good", c2VdGood)] }

/-- C2 scenario: manager state for `c2Cfg`. -/
def c2St : ViewManagerState := { mem := c2Cfg, disk := c2Cfg }

/-- C2 scenario: an engine that fails exactly on materializing `bad`. -/
def c2Engine : Engine :=
  { connectOk := true, setupOk := true,
    execOk := fun s => !(s == createViewSQL "bad" "SELECT * FROM nope"),
    describeCols := fun _ => [], queryRows := fun _ => [[("x", "1")]] }

/-- C2 scenario: the agent over that store and engine. -/
def c2Agent : SQLAgent := SQLAgent.init c2St c2Engine s3Default

/-- C5 scenario: a view inserted at instant 1. -/
def c5Vd : ViewDefinition :=
  { name := "v", description := "first description", sql_query := "SELECT 1",
    tags := [], created := 1, updated := 1 }

/-- C5 scenario: store holding that view. -/
def c5Cfg : ViewsConfig :=
  { version := "1.0", created := 0, last_updated := 1, views := [("v", c5Vd)] }

/-- C5 scenario: manager state for `c5Cfg`. -/
def c5St : ViewManagerState := { mem := c5Cfg, disk := c5Cfg }

/-- C5 scenario: `create("v", ..., replace=true)` at the later instant 2. -/
def c5Replace : Except VMError Bool × ViewManagerState × ConnStats :=
  create_view c5St okEngine 2 "v" "second description" "SELECT 2" [] true

/-- C8 scenario: an engine whose connection acquisition fails. -/
def c8FailConnEngine : Engine := { okEngine with connectOk := false }

/-- C3/C9 scenario: a SQL body whose validation probe the engine rejects. -/
def c9BadQuery : String := "SELECT * FROM nonexistent_table"

/-- C3/C9 scenario: an engine that fails exactly on the validation probe of
`c9BadQuery`. -/
def c9ProbeFailEngine : Engine :=
  { connectOk := true, setupOk := true,
    execOk := fun s => !(s == testQuery c9BadQuery),
    describeCols := fun _ => [], queryRows := fun _ => [] }

/-- C9 scenario: an engine that fails exactly on `DESCRIBE ghost`. -/
def c9DescribeFailEngine : Engine :=
  { connectOk := true, setupOk := true,
    execOk := fun s => !(s == "DESCRIBE ghost"),
    describeCols := fun _ => [], queryRows := fun _ => [] }

end Convo

namespace Convo

/-! ## Substring lemmas

`containsSub` versus `List.IsInfix`, and a window decomposition that lets a
substring check over a long concatenation be settled chunk by chunk (an
occurrence either starts inside the left part — and then lies within the
left part extended by the first `|needle| - 1` characters of the right part
— or lies entirely in the right part). -/

theorem containsSub_infix_iff (t s : List Char) : containsSub t s = true ↔ t <:+: s := by
  induction s with
  | nil =>
    simp [containsSub, List.isEmpty_iff, List.infix_nil]
  | cons c rest ih =>
    simp [containsSub, List.isPrefixOf_iff_prefix, ih, List.infix_cons_iff]

theorem infix_append_window (t a b : List Char) :
    t <:+: a ++ b ↔ t <:+: a ++ b.take (t.length - 1) ∨ t <:+: b := by
  constructor
  · rintro ⟨s, u, h⟩
    by_cases hs : a.length ≤ s.length
    · right
      refine ⟨s.drop a.length, u, ?_⟩
      have h1 : a.length ≤ (s ++ t).length := by
        simp only [List.length_append]; omega
      calc s.drop a.length ++ t ++ u
          = (s ++ t).drop a.length ++ u := by rw [List.drop_append_of_le_length hs]
        _ = ((s ++ t) ++ u).drop a.length := (List.drop_append_of_le_length h1).symm
        _ = (a ++ b).drop a.length := by rw [h]
        _ = b := by simp
    · left
      by_cases hb : b.length ≤ t.length - 1
      · rw [List.take_of_length_le hb]
        exact ⟨s, u, h⟩
      · by_cases ht : t = []
        · subst ht; exact List.nil_infix
        · have ht1 : 1 ≤ t.length := List.length_pos.mpr ht
          have p1 : s ++ t <+: a ++ b := ⟨u, h⟩
          have p2 : a ++ b.take (t.length - 1) <+: a ++ b :=
            (List.prefix_append_right_inj a).mpr (List.take_prefix _ b)
          have hlen : (s ++ t).length ≤ (a ++ b.take (t.length - 1)).length := by
            simp only [List.length_append, List.length_take]
            omega
          have p3 : s ++ t <+: a ++ b.take (t.length - 1) :=
            List.prefix_of_prefix_length_le p1 p2 hlen
          exact ((List.suffix_append s t).isInfix).trans p3.isInfix
  · rintro (h | h)
    · exact h.trans ((List.prefix_append_right_inj a).mpr (List.take_prefix _ b)).isInfix
    · exact h.trans (List.suffix_append a b).isInfix

theorem containsSub_append_false (t a b : List Char)
    (h1 : containsSub t (a ++ b.take (t.length - 1)) = false)
    (h2 : containsSub t b = false) :
    containsSub t (a ++ b) = false := by
  have hw := infix_append_window t a b
  rw [← containsSub_infix_iff, ← containsSub_infix_iff, ← containsSub_infix_iff,
    h1, h2] at hw
  simpa using hw

theorem containsSub_append_left (t a b : List Char)
    (h : containsSub t a = true) :
    containsSub t (a ++ b) = true := by
  rw [containsSub_infix_iff] at h ⊢
  exact h.trans (List.prefix_append a b).isInfix

theorem containsSub_append_right (t a b : List Char)
    (h : containsSub t b = true) :
    containsSub t (a ++ b) = true := by
  rw [containsSub_infix_iff] at h ⊢
  exact h.trans (List.suffix_append a b).isInfix

/-- The character data of the system prompt, as a right-nested
concatenation of its sections (so substring questions can be settled
section by section). -/
theorem create_system_prompt_data (a : SQLAgent) (d1 d2 d3 d4 : String) :
    (create_system_prompt a d1 d2 d3 d4).data =
      (promptHeader a.table_schema.table_name a.table_schema.s3_path).data ++
      ((promptColumns a.table_schema.columns).data ++
      ((promptDates d1 d2 d3).data ++
      ((format_views_for_prompt a).data ++
      ((promptRules a.table_schema.s3_path).data ++
      (promptAliasing.data ++
      ((promptDateSyntax d1 d2 d3 d4).data ++
      ((promptSamples a.table_schema.sample_queries).data ++
      ((promptExamples a.table_schema.s3_path d3).data ++
      promptPriority.data)))))))) := by
  simp [create_system_prompt, List.append_assoc]

/-! ## Helper lemmas about the store's association list and view
materialization -/

/-- Looking up the key just written by a Python dict assignment yields the
written value. -/
theorem lookup_updateAssoc_self (k : String) (v : ViewDefinition)
    (l : List (String × ViewDefinition)) :
    (updateAssoc k v l).lookup k = some v := by
  induction l with
  | nil => simp [updateAssoc, List.lookup]
  | cons p rest ih =>
    by_cases h : p.1 == k
    · simp [updateAssoc, h, List.lookup]
    · simp only [updateAssoc]
      rw [if_neg (by simpa using h)]
      simp only [List.lookup]
      have hne : p.1 ≠ k := by simpa [beq_iff_eq] using h
      have h2 : (k == p.1) = false := beq_eq_false_iff_ne.mpr (Ne.symm hne)
      rw [h2]
      exact ih

/-- After `del d[k]` (filtering the key out), looking the key up fails. -/
theorem lookup_filter_ne (k : String) (l : List (String × ViewDefinition)) :
    (l.filter (fun p => p.1 != k)).lookup k = none := by
  induction l with
  | nil => simp
  | cons p rest ih =>
    by_cases h : p.1 == k
    · simp only [List.filter]
      rw [show (p.1 != k) = false by simpa using h]
      exact ih
    · simp only [List.filter]
      rw [show (p.1 != k) = true by simpa using h]
      simp only [List.lookup]
      have hne : p.1 ≠ k := by simpa [beq_iff_eq] using h
      have h2 : (k == p.1) = false := beq_eq_false_iff_ne.mpr (Ne.symm hne)
      rw [h2]
      exact ih

/-- What `_create_views_in_connection` actually materializes: the longest
prefix of the store (in iteration order) on which every `CREATE OR REPLACE
VIEW` succeeds; the first failure, if any, ends the loop with the remaining
views unattempted. -/
theorem createViewsInConnection_spec (views : List (String × ViewDefinition)) (e : Engine) :
    ∃ done rest, views = done ++ rest ∧
      createViewsInConnection views e = done.map Prod.fst ∧
      (∀ p ∈ done, e.execOk (createViewSQL p.1 p.2.sql_query) = true) ∧
      (rest = [] ∨ ∃ q rest2, rest = q :: rest2 ∧
        e.execOk (createViewSQL q.1 q.2.sql_query) = false) := by
  induction views with
  | nil => exact ⟨[], [], rfl, rfl, by simp, Or.inl rfl⟩
  | cons p rest ih =>
    by_cases h : e.execOk (createViewSQL p.1 p.2.sql_query) = true
    · obtain ⟨done', rest', hsplit, hmat, hall, hstop⟩ := ih
      refine ⟨p :: done', rest', by rw [hsplit]; rfl, ?_, ?_, hstop⟩
      · simp only [createViewsInConnection, h, if_pos]
        rw [hmat]
        rfl
      · intro q hq
        rcases List.mem_cons.mp hq with hq | hq
        · rw [hq]; exact h
        · exact hall q hq
    · refine ⟨[], p :: rest, rfl, ?_, by simp, Or.inr ⟨p, rest, rfl, by simpa using h⟩⟩
      simp only [createViewsInConnection]
      rw [if_neg h]
      rfl

end Convo

namespace Convo

/-! ## The claims -/

set_option maxRecDepth 400000 in
/-- C1 (amended): the prompt's view catalog reflects the View Store's
contents as of agent construction, not as of build time.  An agent
constructed after `create("foo", ...)` builds a prompt containing the
literal token `foo`; an agent constructed after the subsequent
`delete("foo")` builds a prompt that does not contain it. -/
theorem c1_prompt_reflects_store_at_construction :
    strContains
      (create_system_prompt c1AgentFresh "2025-06-03" "2025-06-02" "2025-06-01" "2025-05-27")
      "foo" = true ∧
    strContains
      (create_system_prompt c1AgentFresh2 "2025-06-03" "2025-06-02" "2025-06-01" "2025-05-27")
      "foo" = false := by
  constructor
  · show containsSub "foo".data
        (create_system_prompt c1AgentFresh
          "2025-06-03" "2025-06-02" "2025-06-01" "2025-05-27").data = true
    rw [create_system_prompt_data]
    apply containsSub_append_right
    apply containsSub_append_right
    apply containsSub_append_right
    apply containsSub_append_left
    decide
  · show containsSub "foo".data
        (create_system_prompt c1AgentFresh2
          "2025-06-03" "2025-06-02" "2025-06-01" "2025-05-27").data = false
    rw [create_system_prompt_data]
    apply containsSub_append_false
    · decide
    apply containsSub_append_false
    · decide
    apply containsSub_append_false
    · decide
    apply containsSub_append_false
    · decide
    apply containsSub_append_false
    · decide
    apply containsSub_append_false
    · decide
    apply containsSub_append_false
    · decide
    apply containsSub_append_false
    · decide
    apply containsSub_append_false
    · decide
    decide

set_option maxRecDepth 400000 in
/-- C1 counterexample: the claim as stated fails.  After `create("foo")`
performed through the agent's own `ViewManager` (so the store demonstrably
holds `foo`), the next prompt built by that already-constructed agent does
NOT contain the token `foo`: `_format_views_for_prompt` reads the
`available_views` snapshot taken in `__init__`, not the store. -/
theorem c1_stale_prompt_counterexample :
    c1Create.1 = .ok true ∧
    (lookupView c1AgentStale.view_manager "foo").isSome = true ∧
    strContains
      (create_system_prompt c1AgentStale "2025-06-03" "2025-06-02" "2025-06-01" "2025-05-27")
      "foo" = false := by
  refine ⟨rfl, rfl, ?_⟩
  show containsSub "foo".data
      (create_system_prompt c1AgentStale
        "2025-06-03" "2025-06-02" "2025-06-01" "2025-05-27").data = false
  rw [create_system_prompt_data]
  apply containsSub_append_false
  · decide
  apply containsSub_append_false
  · decide
  apply containsSub_append_false
  · decide
  apply containsSub_append_false
  · decide
  apply containsSub_append_false
  · decide
  apply containsSub_append_false
  · decide
  apply containsSub_append_false
  · decide
  apply containsSub_append_false
  · decide
  apply containsSub_append_false
  · decide
  decide

/-- C2 (amended): during `execute_query`, views are re-materialized in
store order only up to the first failure: the caught exception keeps the
caller's SQL running (the result is still the rows of `sqlText`), but the
views after the first failing one are never attempted.  The materialized
list is the longest successful prefix of the store. -/
theorem c2_materialization_stops_at_first_failure
    (a : SQLAgent) (e : Engine) (sql : String)
    (hc : e.connectOk = true) (hs : e.setupOk = true) (hq : e.execOk sql = true) :
    (execute_query a e sql).result = .ok (e.queryRows sql) ∧
    ∃ done rest, a.view_manager.mem.views = done ++ rest ∧
      (execute_query a e sql).materialized = done.map Prod.fst ∧
      (∀ p ∈ done, e.execOk (createViewSQL p.1 p.2.sql_query) = true) ∧
      (rest = [] ∨ ∃ q rest2, rest = q :: rest2 ∧
        e.execOk (createViewSQL q.1 q.2.sql_query) = false) := by
  constructor
  · simp [execute_query, hc, hs, hq]
  · obtain ⟨done, rest, hsplit, hmat, hall, hstop⟩ :=
      createViewsInConnection_spec a.view_manager.mem.views e
    exact ⟨done, rest, hsplit, by simp [execute_query, hc, hs, hq, hmat], hall, hstop⟩

/-- C2 witness: the amended theorem applied to the concrete two-view store
whose first view is broken. -/
theorem c2_materialization_witness :
    (execute_query c2Agent c2Engine "SELECT 1").result = .ok (c2Engine.queryRows "SELECT 1") ∧
    ∃ done rest, c2Agent.view_manager.mem.views = done ++ rest ∧
      (execute_query c2Agent c2Engine "SELECT 1").materialized = done.map Prod.fst ∧
      (∀ p ∈ done, c2Engine.execOk (createViewSQL p.1 p.2.sql_query) = true) ∧
      (rest = [] ∨ ∃ q rest2, rest = q :: rest2 ∧
        c2Engine.execOk (createViewSQL q.1 q.2.sql_query) = false) :=
  c2_materialization_stops_at_first_failure c2Agent c2Engine "SELECT 1" rfl rfl (by decide)

/-- C2 counterexample: the claim as stated fails.  In a store holding the
broken view `bad` before the healthy view `good`, executing a query
materializes NO view at all — in particular not `good`, even though the
engine accepts `good`'s own `CREATE OR REPLACE VIEW` — because the single
`try` around the loop aborts it at the first failure.  The caller's SQL
still runs. -/
theorem c2_skip_remaining_counterexample :
    c2Engine.execOk (createViewSQL "good" "SELECT 2") = true ∧
    (execute_query c2Agent c2Engine "SELECT 1").materialized = [] ∧
    (execute_query c2Agent c2Engine "SELECT 1").result = .ok (c2Engine.queryRows "SELECT 1") := by
  exact ⟨rfl, rfl, rfl⟩

/-- C3: validate-before-persist.  If the engine rejects the validation
probe of `q`, `create_view` leaves the whole manager state — in particular
the persisted file — unchanged, leaves `get(name)` unchanged (absent stays
absent), and, whenever the duplicate-name guard does not fire first
(`replace` set, or the name absent), raises `InvalidViewDefinitionError`
(the `Invalid SQL query` ValueError). -/
theorem c3_validate_before_persist (st : ViewManagerState) (e : Engine) (now : Nat)
    (n d q : String) (tags : List String) (r : Bool)
    (hprobe : e.execOk (testQuery q) = false) :
    (create_view st e now n d q tags r).2.1 = st ∧
    (create_view st e now n d q tags r).2.1.disk = st.disk ∧
    lookupView (create_view st e now n d q tags r).2.1 n = lookupView st n ∧
    ((r = true ∨ lookupView st n = none) →
      (create_view st e now n d q tags r).1 = .error (.invalidViewDefinition n)) := by
  by_cases hdup : (!r && (lookupView st n).isSome) = true
  · refine ⟨by simp [create_view, hdup], by simp [create_view, hdup],
      by simp [create_view, hdup], ?_⟩
    rintro (hr | hl)
    · subst hr; simp at hdup
    · rw [hl] at hdup; simp at hdup
  · by_cases hc : e.connectOk = true
    · refine ⟨?_, ?_, ?_, ?_⟩ <;>
        simp [create_view, hdup, hc, hprobe]
    · simp only [Bool.not_eq_true] at hc
      refine ⟨?_, ?_, ?_, ?_⟩ <;>
        simp [create_view, hdup, hc]

/-- C3 witness: creating `bad` from the invalid body on the empty store
fails with the invalid-definition error and leaves the store untouched. -/
theorem c3_validate_before_persist_witness :
    (create_view (ViewManagerState.init 0) c9ProbeFailEngine 1 "bad" "desc" c9BadQuery [] false).2.1
      = ViewManagerState.init 0 ∧
    (create_view (ViewManagerState.init 0) c9ProbeFailEngine 1 "bad" "desc" c9BadQuery [] false).2.1.disk
      = (ViewManagerState.init 0).disk ∧
    lookupView (create_view (ViewManagerState.init 0) c9ProbeFailEngine 1 "bad" "desc" c9BadQuery [] false).2.1 "bad"
      = lookupView (ViewManagerState.init 0) "bad" ∧
    ((false = true ∨ lookupView (ViewManagerState.init 0) "bad" = none) →
      (create_view (ViewManagerState.init 0) c9ProbeFailEngine 1 "bad" "desc" c9BadQuery [] false).1
        = .error (.invalidViewDefinition "bad")) :=
  c3_validate_before_persist (ViewManagerState.init 0) c9ProbeFailEngine 1 "bad" "desc"
    c9BadQuery [] false (by decide)

/-- C4: uniqueness on create.  If `n` is already stored and `replace` is
false, `create_view` raises `DuplicateNameError` (the `already exists`
ValueError), the state is untouched, and the original definition is still
retrievable unchanged. -/
theorem c4_duplicate_create_rejected (st : ViewManagerState) (e : Engine) (now : Nat)
    (n d q : String) (tags : List String) (vd : ViewDefinition)
    (h : lookupView st n = some vd) :
    (create_view st e now n d q tags false).1 = .error (.duplicateName n) ∧
    (create_view st e now n d q tags false).2.1 = st ∧
    lookupView (create_view st e now n d q tags false).2.1 n = some vd := by
  refine ⟨by simp [create_view, h], by simp [create_view, h], ?_⟩
  simp [create_view, h]

/-- C4 witness: re-creating the stored view `v` without `replace` fails
with the duplicate error and `v`'s original definition survives. -/
theorem c4_duplicate_create_witness :
    (create_view c5St okEngine 7 "v" "other" "SELECT 9" [] false).1
      = .error (.duplicateName "v") ∧
    (create_view c5St okEngine 7 "v" "other" "SELECT 9" [] false).2.1 = c5St ∧
    lookupView (create_view c5St okEngine 7 "v" "other" "SELECT 9" [] false).2.1 "v" = some c5Vd :=
  c4_duplicate_create_rejected c5St okEngine 7 "v" "other" "SELECT 9" [] c5Vd rfl

/-- C5 (amended): `create(n, ..., replace=true)` on an existing name builds
a completely fresh definition: both `created` and `updated` are stamped with the
time of the replacement, so the prior `created` is NOT preserved. -/
theorem c5_replace_resets_created (st : ViewManagerState) (e : Engine) (now : Nat)
    (n d q : String) (tags : List String) (vd : ViewDefinition)
    (_h : lookupView st n = some vd) (hc : e.connectOk = true)
    (hp : e.execOk (testQuery q) = true) (hcr : e.execOk (createViewSQL n q) = true) :
    (create_view st e now n d q tags true).1 = .ok true ∧
    lookupView (create_view st e now n d q tags true).2.1 n =
      some { name := n, description := d, sql_query := q, tags := tags,
             created := now, updated := now } := by
  constructor
  · simp [create_view, hc, hp, hcr]
  · simp [create_view, hc, hp, hcr, lookupView, lookup_updateAssoc_self]

/-- C5 witness: replacing `v` (created at instant 1) at instant 2 stores a
definition whose `created` is 2. -/
theorem c5_replace_resets_created_witness :
    (create_view c5St okEngine 2 "v" "second description" "SELECT 2" [] true).1 = .ok true ∧
    lookupView (create_view c5St okEngine 2 "v" "second description" "SELECT 2" [] true).2.1 "v" =
      some { name := "v", description := "second description", sql_query := "SELECT 2",
             tags := [], created := 2, updated := 2 } :=
  c5_replace_resets_created c5St okEngine 2 "v" "second description" "SELECT 2" [] c5Vd
    rfl rfl rfl rfl

/-- C5 counterexample: the claim as stated fails.  The view `v` was created
at instant 1; after `create("v", ..., replace=true)` at instant 2 the
stored `created` is 2, not the preserved 1. -/
theorem c5_created_not_preserved_counterexample :
    c5Replace.1 = .ok true ∧
    (lookupView c5St "v").map ViewDefinition.created = some 1 ∧
    (lookupView c5Replace.2.1 "v").map ViewDefinition.created = some 2 := by
  exact ⟨rfl, rfl, rfl⟩

/-- C6 (amended): a provider error does propagate out of `generate_sql`,
but an empty completion is NOT rejected: it is returned to the caller as a
successful empty SQL string. -/
theorem c6_error_propagates_empty_passes_through :
    (∀ msg : String, generate_sql (.error msg) = .error msg) ∧
    generate_sql (.ok "") = .ok "" :=
  ⟨fun _ => rfl, rfl⟩

/-- C6 counterexample: the claim as stated fails.  With the external
capability returning empty text, `generate_sql` returns the empty string as
a success instead of raising a `GenerationError`. -/
theorem c6_empty_completion_counterexample : generate_sql (.ok "") = .ok "" := rfl

/-- C7: SQL normalization.  The generator output `` ```sql\nSELECT 1\n``` ``
is returned as exactly `SELECT 1`: no fence markers, no surrounding
whitespace. -/
theorem c7_sql_fence_normalization :
    generate_sql (.ok "```sql\nSELECT 1\n```") = .ok "SELECT 1" := rfl

/-- C8: delete semantics.  Deleting a missing name returns `False` with the
store untouched and no connection opened; deleting an existing name (with a
healthy engine) returns `True` and the name becomes absent; an engine-level
failure (connection or `DROP`) propagates as an error instead of returning
`False`, leaving the store unchanged. -/
theorem c8_delete_semantics (st : ViewManagerState) (e : Engine) (now : Nat) (n : String) :
    (lookupView st n = none →
      delete_view st e now n = (.ok false, st, ⟨0, 0⟩)) ∧
    (∀ vd, lookupView st n = some vd → e.connectOk = true →
      e.execOk ("DROP VIEW IF EXISTS " ++ n) = true →
      (delete_view st e now n).1 = .ok true ∧
      lookupView (delete_view st e now n).2.1 n = none) ∧
    (∀ vd, lookupView st n = some vd →
      (e.connectOk = false ∨ e.execOk ("DROP VIEW IF EXISTS " ++ n) = false) →
      (delete_view st e now n).1 = .error .engineError ∧
      (delete_view st e now n).2.1 = st) := by
  refine ⟨?_, ?_, ?_⟩
  · intro h
    simp [delete_view, h]
  · intro vd h hc hdrop
    constructor
    · simp [delete_view, h, hc, hdrop]
    · have hres : (delete_view st e now n).2.1.mem.views
          = st.mem.views.filter (fun p => p.1 != n) := by
        simp [delete_view, h, hc, hdrop]
      show ((delete_view st e now n).2.1.mem.views).lookup n = none
      rw [hres]
      exact lookup_filter_ne n st.mem.views
  · intro vd h hfail
    rcases hfail with hfail | hfail
    · constructor <;> simp [delete_view, h, hfail]
    · by_cases hc : e.connectOk = true
      · constructor <;> simp [delete_view, h, hc, hfail]
      · simp only [Bool.not_eq_true] at hc
        constructor <;> simp [delete_view, h, hc]

/-- C8 witness: the three branches at concrete stores — a missing name, a
successful delete of `v`, and a delete of `v` against a connection-failing
engine. -/
theorem c8_delete_semantics_witness :
    delete_view (ViewManagerState.init 0) okEngine 5 "ghost" =
      (.ok false, ViewManagerState.init 0, ⟨0, 0⟩) ∧
    ((delete_view c5St okEngine 3 "v").1 = .ok true ∧
      lookupView (delete_view c5St okEngine 3 "v").2.1 "v" = none) ∧
    ((delete_view c5St c8FailConnEngine 3 "v").1 = .error .engineError ∧
      (delete_view c5St c8FailConnEngine 3 "v").2.1 = c5St) :=
  ⟨(c8_delete_semantics (ViewManagerState.init 0) okEngine 5 "ghost").1 rfl,
   (c8_delete_semantics c5St okEngine 3 "v").2.1 c5Vd rfl rfl rfl,
   (c8_delete_semantics c5St c8FailConnEngine 3 "v").2.2 c5Vd rfl (Or.inl rfl)⟩

/-- C9 (amended): `execute_query` balances its connection ledger on every
path (the `try/finally`), and `create_view` and `delete_view` balance it on
every successful return; the exception paths of `create_view` and
`_get_view_columns` are the ones that leak (see the counterexample). -/
theorem c9_connection_scoping :
    (∀ (a : SQLAgent) (e : Engine) (sql : String),
      (execute_query a e sql).stats.closes = (execute_query a e sql).stats.opens) ∧
    (∀ (st : ViewManagerState) (e : Engine) (now : Nat) (n d q : String)
        (tags : List String) (r b : Bool) (st2 : ViewManagerState) (cs : ConnStats),
      create_view st e now n d q tags r = (.ok b, st2, cs) → cs.closes = cs.opens) ∧
    (∀ (st : ViewManagerState) (e : Engine) (now : Nat) (n : String)
        (b : Bool) (st2 : ViewManagerState) (cs : ConnStats),
      delete_view st e now n = (.ok b, st2, cs) → cs.closes = cs.opens) := by
  refine ⟨?_, ?_, ?_⟩
  · intro a e sql
    unfold execute_query
    by_cases hc : e.connectOk = true
    · by_cases hs : e.setupOk = true
      · by_cases hq : e.execOk sql = true <;> simp [hc, hs, hq]
      · simp only [Bool.not_eq_true] at hs
        simp [hc, hs]
    · simp only [Bool.not_eq_true] at hc
      simp [hc]
  · intro st e now n d q tags r b st2 cs h
    unfold create_view at h
    by_cases hdup : (!r && (lookupView st n).isSome) = true
    · rw [if_pos hdup] at h
      cases h
    · rw [if_neg hdup] at h
      by_cases hc : (!e.connectOk) = true
      · rw [if_pos hc] at h; cases h
      · rw [if_neg hc] at h
        by_cases hp : (!e.execOk (testQuery q)) = true
        · rw [if_pos hp] at h; cases h
        · rw [if_neg hp] at h
          by_cases hcr : (!e.execOk (createViewSQL n q)) = true
          · rw [if_pos hcr] at h; cases h
          · rw [if_neg hcr] at h
            cases h
            rfl
  · intro st e now n b st2 cs h
    unfold delete_view at h
    by_cases hmiss : (lookupView st n).isNone = true
    · rw [if_pos hmiss] at h
      cases h
      rfl
    · rw [if_neg hmiss] at h
      by_cases hc : (!e.connectOk) = true
      · rw [if_pos hc] at h; cases h
      · rw [if_neg hc] at h
        by_cases hdrop : (!e.execOk ("DROP VIEW IF EXISTS " ++ n)) = true
        · rw [if_pos hdrop] at h; cases h
        · rw [if_neg hdrop] at h
          cases h
          rfl

/-- C9 witness: the balanced ledger at concrete inputs — an `execute_query`
call and the successful `create("foo")` of the C1 scenario. -/
theorem c9_connection_scoping_witness :
    ((execute_query c2Agent c2Engine "SELECT 1").stats.closes
      = (execute_query c2Agent c2Engine "SELECT 1").stats.opens) ∧
    c1Create.2.2.closes = c1Create.2.2.opens :=
  ⟨c9_connection_scoping.1 c2Agent c2Engine "SELECT 1",
   c9_connection_scoping.2.1 c1St0 okEngine 1 "foo" "Daily foo counts" "SELECT 1 AS x"
     ["daily"] false true c1Create.2.1 c1Create.2.2 rfl⟩

/-- C9 counterexample: the claim as stated fails.  `create_view` with a
failing validation probe opens one connection and closes none
(`conn.close()` is only on the success path), and `_get_view_columns` with
a failing `DESCRIBE` does the same. -/
theorem c9_connection_leak_counterexample :
    (create_view (ViewManagerState.init 0) c9ProbeFailEngine 1 "bad" "desc" c9BadQuery [] false).2.2
      = ⟨1, 0⟩ ∧
    (get_view_columns (ViewManagerState.init 0) c9DescribeFailEngine "ghost").2 = ⟨1, 0⟩ := by
  exact ⟨rfl, rfl⟩

/-- C10: the fence normalization of `generate_sql` is global: every
occurrence of `` ```sql `` and `` ``` `` (with trailing whitespace) is
removed wherever it stands, including inside the statement body, not only
as an enclosing fence pair. -/
theorem c10_global_fence_removal :
    generate_sql (.ok "SELECT 1 ``` SELECT 2") = .ok "SELECT 1 SELECT 2" ∧
    generate_sql (.ok "SELECT a ```sql FROM t") = .ok "SELECT a FROM t" ∧
    generate_sql (.ok "```sql\nSELECT ``` FROM x\n```") = .ok "SELECT FROM x" :=
  ⟨rfl, rfl, rfl⟩

end Convo
